import Mathlib

/-!
Verification development for the AnyCrawl MCP server repository.

The development shallowly embeds the parts of the TypeScript sources that the
claims are about:

* the multi-tenant session registry of `CombinedMCPServer`
  (src/combined-server.ts, delayed-deletion variant): the per-tenant maps
  `mcpTransports` / `mcpServers` / `sseTransports`, the delayed-deletion
  bookkeeping `deletionTimes` / `sessionStates`, the periodic `performCleanup`
  sweep and the HTTP entry points `handleMcpPost` / `handleMcpSession`;

* the tool-call layer of `AnyCrawlMCPServer` (src/mcp-server.ts): request
  dispatch by tool name, the scrape/crawl/search argument builders that decide
  which caller-supplied fields are forwarded to the remote API, and the
  error-mapping conventions;

* the aggregated crawl operation `realClient.crawl` (the in-repo reference
  client): bounded status polling followed by result-page aggregation.

JavaScript objects and `Map`s are modelled as association lists with
overwrite-on-set semantics; JS `key.split('-')` is modelled by splitting the
character list on `'-'`; times are `Nat` milliseconds.
-/

/-! ### Association-list maps (JS object / `Map` semantics) -/

/-- Lookup in an association list: first binding wins (bindings are unique
because `setk` overwrites in place). Models `obj[k]` / `map.get(k)`. -/
def getk {β : Type} (m : List (String × β)) (k : String) : Option β :=
  match m with
  | [] => none
  | (k', v) :: rest => if k' = k then some v else getk rest k

/-- Set a key, overwriting an existing binding in place.  Models
`obj[k] = v` / `map.set(k, v)`. -/
def setk {β : Type} (m : List (String × β)) (k : String) (v : β) :
    List (String × β) :=
  match m with
  | [] => [(k, v)]
  | (k', v') :: rest =>
    if k' = k then (k, v) :: rest else (k', v') :: setk rest k v

/-- Remove every binding of a key.  Models `delete obj[k]` / `map.delete(k)`. -/
def delk {β : Type} (m : List (String × β)) (k : String) :
    List (String × β) :=
  m.filter (fun p => p.1 ≠ k)

/-- Two-level lookup `obj[a]?.[b]`. -/
def getk2 {β : Type} (m : List (String × List (String × β))) (a b : String) :
    Option β :=
  match getk m a with
  | none => none
  | some sub => getk sub b

/-- Two-level set `obj[a][b] = v`, creating the inner object when missing
(the sources guard with `if (!this.map[a]) this.map[a] = {}`). -/
def setk2 {β : Type} (m : List (String × List (String × β))) (a b : String)
    (v : β) : List (String × List (String × β)) :=
  match getk m a with
  | none => setk m a [(b, v)]
  | some sub => setk m a (setk sub b v)

/-- Two-level delete `if (obj[a]) delete obj[a][b]` as written in
`executeDeletion`. -/
def delk2 {β : Type} (m : List (String × List (String × β))) (a b : String) :
    List (String × List (String × β)) :=
  match getk m a with
  | none => m
  | some sub => setk m a (delk sub b)

/-! ### Session registry of `CombinedMCPServer` (delayed-deletion variant)

State of the multi-tenant session registry: per-tenant transport/server maps,
the delayed-deletion schedule `deletionTimes` and the session-state map
`sessionStates`, both keyed by the composite string
`` `${apiKey}-${sessionId}-${isMcp ? 'mcp' : 'sse'}` ``.
Transports and engines are identified by numeric ids. -/

/-- Session state values `'active' | 'paused' | 'expired'` stored in
`sessionStates` (`'not_found'` is modelled by `none` on lookup). -/
inductive SState where
  | active
  | paused
  | expired
deriving DecidableEq, Repr

/-- Outcome of an HTTP entry point: the request was handed to a transport /
answered, or rejected with a 400 response carrying a message. -/
inductive HttpResp where
  | handled
  | badRequest (msg : String)
deriving DecidableEq, Repr

/-- HTTP status code of a response outcome. -/
def httpStatus : HttpResp → Nat
  | .handled => 200
  | .badRequest _ => 400

/-- Registry state of the delayed-deletion `CombinedMCPServer`. -/
structure CombinedState where
  mcpTransports : List (String × List (String × Nat))
  mcpServers : List (String × List (String × Nat))
  sseTransports : List (String × List (String × Nat))
  deletionTimes : List (String × Nat)
  sessionStates : List (String × SState)
deriving DecidableEq, Repr

/-- The empty registry (constructor state). -/
def emptyCombined : CombinedState :=
  { mcpTransports := [], mcpServers := [], sseTransports := [],
    deletionTimes := [], sessionStates := [] }

/-- Composite key `` `${apiKey}-${sessionId}-${isMcp ? 'mcp' : 'sse'}` ``. -/
def sessionKey (apiKey sessionId : String) (isMcp : Bool) : String :=
  apiKey ++ "-" ++ sessionId ++ "-" ++ (if isMcp then "mcp" else "sse")

/-- JavaScript `key.split('-')`: split the character list on `'-'`. -/
def jsSplit (s : String) (c : Char) : List String :=
  (s.data.splitOn c).map String.mk

/-- `delayedDelete`: schedule deletion 5 minutes (300000 ms) from now and mark
the session `'paused'`. -/
def delayedDelete (st : CombinedState) (apiKey sessionId : String)
    (isMcp : Bool) (now : Nat) : CombinedState :=
  let key := sessionKey apiKey sessionId isMcp
  { st with
    deletionTimes := setk st.deletionTimes key (now + 300000),
    sessionStates := setk st.sessionStates key SState.paused }

/-- `cancelDelayedDelete`: if a deletion is pending for the key, drop it and
mark the session `'active'`. -/
def cancelDelayedDelete (st : CombinedState) (apiKey sessionId : String)
    (isMcp : Bool) : CombinedState :=
  let key := sessionKey apiKey sessionId isMcp
  if (getk st.deletionTimes key).isSome then
    { st with
      deletionTimes := delk st.deletionTimes key,
      sessionStates := setk st.sessionStates key SState.active }
  else st

/-- `executeDeletion`: parse the composite key with `key.split('-')`; when the
split does not yield exactly three non-empty parts the deletion is rejected
(`Invalid key format for deletion`) and nothing is removed; otherwise remove
the transport (and, for `'mcp'`, the server) from the tenant partition named
by the first part and mark the key `'expired'`. -/
def executeDeletion (st : CombinedState) (key : String) : CombinedState :=
  match jsSplit key '-' with
  | [p0, p1, p2] =>
    if p0 = "" ∨ p1 = "" ∨ p2 = "" then st
    else if p2 = "mcp" then
      { st with
        mcpTransports := delk2 st.mcpTransports p0 p1,
        mcpServers := delk2 st.mcpServers p0 p1,
        sessionStates := setk st.sessionStates key SState.expired }
    else
      { st with
        sseTransports := delk2 st.sseTransports p0 p1,
        sessionStates := setk st.sessionStates key SState.expired }
  | _ => st

/-- One iteration of the cleanup loop body: `executeDeletion(key)` followed by
`deletionTimes.delete(key)`. -/
def cleanupStep (st : CombinedState) (key : String) : CombinedState :=
  let st1 := executeDeletion st key
  { st1 with deletionTimes := delk st1.deletionTimes key }

/-- `performCleanup`: collect every scheduled key whose deadline has passed
(`now >= deletionTime`), then run the deletion body on each. -/
def performCleanup (st : CombinedState) (now : Nat) : CombinedState :=
  let keysToDelete := (st.deletionTimes.filter (fun p => now ≥ p.2)).map Prod.fst
  keysToDelete.foldl cleanupStep st

/-- `getSessionState` (public accessor); `none` models `'not_found'`. -/
def getSessionState (st : CombinedState) (apiKey sessionId : String)
    (isMcp : Bool) : Option SState :=
  getk st.sessionStates (sessionKey apiKey sessionId isMcp)

/-- The `onclose` hook installed on a streaming-HTTP transport: once the
transport has a session id, closing it schedules a delayed deletion instead of
tearing the session down. -/
def onMcpTransportClose (st : CombinedState) (apiKey sessionId : String)
    (now : Nat) : CombinedState :=
  delayedDelete st apiKey sessionId true now

/-- `handleMcpPost` on `POST /:apiKey/mcp`.

* missing api key → 400;
* a session-id header that resolves in the tenant partition → cancel any
  pending delayed deletion and forward to the transport;
* no session-id header on an initialize request → create a session: the
  engine is recorded under `transport.sessionId ?? 'pending'` — the SDK
  assigns the session id only while `handleRequest` processes the initialize
  message, so the recorded key is always the literal `'pending'`; during
  `handleRequest` the SDK fires `onsessioninitialized(newSid)`, which
  (re)creates both per-tenant maps when the tenant has no transport partition
  yet and registers the transport under the generated id;
* anything else → 400, untouched state.

`newSid` is the id the SDK's `randomUUID` generator produces, `tid`/`eid`
identify the freshly constructed transport and engine. -/
def handleMcpPost (st : CombinedState) (apiKey : String)
    (sessionHeader : Option String) (isInit : Bool) (newSid : String)
    (tid eid : Nat) : CombinedState × HttpResp :=
  if apiKey = "" then
    (st, .badRequest "Bad Request: API key is required")
  else
    match sessionHeader with
    | some sid =>
      if (getk2 st.mcpTransports apiKey sid).isSome then
        (cancelDelayedDelete st apiKey sid true, .handled)
      else
        (st, .badRequest "Bad Request: No valid session ID provided")
    | none =>
      if isInit then
        let servers1 :=
          match getk st.mcpServers apiKey with
          | none => setk st.mcpServers apiKey []
          | some _ => st.mcpServers
        let servers2 := setk2 servers1 apiKey "pending" eid
        let reset :=
          match getk st.mcpTransports apiKey with
          | none => (setk st.mcpTransports apiKey [], setk servers2 apiKey [])
          | some _ => (st.mcpTransports, servers2)
        let transports' := setk2 reset.1 apiKey newSid tid
        ({ st with mcpTransports := transports', mcpServers := reset.2 },
          .handled)
      else
        (st, .badRequest "Bad Request: No valid session ID provided")

/-- `handleMcpSession` on `GET /:apiKey/mcp` and `DELETE /:apiKey/mcp`:
reject when the api key is missing or the session header is absent or does
not resolve in the tenant partition; otherwise forward to the transport. -/
def handleMcpSession (st : CombinedState) (apiKey : String)
    (sessionHeader : Option String) : CombinedState × HttpResp :=
  if apiKey = "" then
    (st, .badRequest "API key is required")
  else
    match sessionHeader with
    | none => (st, .badRequest "Invalid or missing session ID")
    | some sid =>
      if (getk2 st.mcpTransports apiKey sid).isSome then (st, .handled)
      else (st, .badRequest "Invalid or missing session ID")

/-! ### Tool-call layer of `AnyCrawlMCPServer` (src/mcp-server.ts)

Raw tool arguments are one untyped JS object; a field being present in the
object (`'field' in args`) is modelled by the corresponding `Option` being
`some`.  Zod validation fills schema defaults into `validatedArgs`, but every
optional field is copied into the forwarded request only under a
`'field' in args` guard, in which case the validated value is the
caller-supplied one; the `v…` accessors below are those validated reads.
Value-level range checks of the schemas are the out-of-scope validation
collaborator and are not modelled.  The `json_options` payload is never
inspected by this layer, only passed through, so it is kept opaque. -/

/-- Opaque stand-in for the `json_options` object (pass-through payload). -/
def JsonOpts : Type := String

deriving instance DecidableEq for JsonOpts

/-- Raw argument object of a tool call; `some` ↔ the key is present. -/
structure RawToolArgs where
  url : Option String := none
  engine : Option String := none
  proxy : Option String := none
  formats : Option (List String) := none
  timeout : Option Nat := none
  retry : Option Bool := none
  wait_for : Option Nat := none
  include_tags : Option (List String) := none
  exclude_tags : Option (List String) := none
  json_options : Option JsonOpts := none
  extract_source : Option String := none
  scrape_options : Option JsonOpts := none
  exclude_paths : Option (List String) := none
  include_paths : Option (List String) := none
  max_depth : Option Nat := none
  strategy : Option String := none
  limit : Option Nat := none
  poll_seconds : Option Nat := none
  poll_interval_ms : Option Nat := none
  timeout_ms : Option Nat := none
  query : Option String := none
  offset : Option Nat := none
  pages : Option Nat := none
  lang : Option String := none
  country : Option String := none
  safeSearch : Option Nat := none
  scrape_engine : Option String := none
  job_id : Option String := none
  skip : Option Nat := none
deriving DecidableEq

/-- Validated `engine` (schema default `'playwright'`). -/
def vEngine (a : RawToolArgs) : String := a.engine.getD "playwright"

/-- Validated `formats` (schema default `['markdown']`). -/
def vFormats (a : RawToolArgs) : List String := a.formats.getD ["markdown"]

/-- Validated `timeout` (schema default `300000`). -/
def vTimeout (a : RawToolArgs) : Nat := a.timeout.getD 300000

/-- Validated `retry` (schema default `false`). -/
def vRetry (a : RawToolArgs) : Bool := a.retry.getD false

/-- Validated `extract_source` (schema default `'markdown'`). -/
def vExtractSource (a : RawToolArgs) : String :=
  a.extract_source.getD "markdown"

/-- Validated `max_depth` (schema default `10`). -/
def vMaxDepth (a : RawToolArgs) : Nat := a.max_depth.getD 10

/-- Validated `strategy` (schema default `'same-domain'`). -/
def vStrategy (a : RawToolArgs) : String := a.strategy.getD "same-domain"

/-- Validated `limit` (schema default `100` for crawl). -/
def vLimit (a : RawToolArgs) : Nat := a.limit.getD 100

/-- Request body forwarded to the remote `/v1/scrape` operation. -/
structure ScrapeRequest where
  url : String
  engine : String
  proxy : Option String := none
  formats : Option (List String) := none
  timeout : Option Nat := none
  retry : Option Bool := none
  wait_for : Option Nat := none
  include_tags : Option (List String) := none
  exclude_tags : Option (List String) := none
  json_options : Option JsonOpts := none
  extract_source : Option String := none
deriving DecidableEq

/-- Nested per-page/per-result scrape options forwarded to the remote API. -/
structure NestedScrapeOpts where
  engine : Option String := none
  proxy : Option String := none
  formats : Option (List String) := none
  timeout : Option Nat := none
  wait_for : Option Nat := none
  include_tags : Option (List String) := none
  exclude_tags : Option (List String) := none
  json_options : Option JsonOpts := none
  extract_source : Option String := none
deriving DecidableEq

/-- Request object handed to the SDK's aggregated `client.crawl`. -/
structure CrawlRequest where
  url : String
  retry : Option Bool := none
  proxy : Option String := none
  exclude_paths : Option (List String) := none
  include_paths : Option (List String) := none
  max_depth : Option Nat := none
  strategy : Option String := none
  limit : Option Nat := none
  engine : Option String := none
  formats : Option (List String) := none
  timeout : Option Nat := none
  wait_for : Option Nat := none
  include_tags : Option (List String) := none
  exclude_tags : Option (List String) := none
  json_options : Option JsonOpts := none
  extract_source : Option String := none
  scrape_options : Option NestedScrapeOpts := none
deriving DecidableEq

/-- Request body forwarded to the remote `/v1/search` operation. -/
structure SearchRequest where
  query : String
  engine : Option String := none
  limit : Option Nat := none
  offset : Option Nat := none
  pages : Option Nat := none
  lang : Option String := none
  country : Option String := none
  safeSearch : Option Nat := none
  scrape_options : Option NestedScrapeOpts := none
deriving DecidableEq

/-- Scrape result returned by the remote API (`ScrapeResult` in types.ts). -/
structure ScrapeResult where
  url : String
  status : String
  jobId : Option String := none
  title : Option String := none
  html : Option String := none
  markdown : Option String := none
  timestamp : Option String := none
  error : Option String := none
deriving DecidableEq

/-- Aggregated crawl result (`{ job_id, status, total, completed, creditsUsed,
data }`). -/
structure CrawlAggregate where
  job_id : String
  status : String
  total : Nat
  completed : Nat
  creditsUsed : Nat
  data : List String
deriving DecidableEq, Repr

/-- Crawl status descriptor returned by the remote API. -/
structure CrawlStatusResp where
  job_id : String
  status : String
  start_time : String
  expires_at : String
  credits_used : Nat
  total : Nat
  completed : Nat
  failed : Nat
deriving DecidableEq

/-- One page of crawl results returned by the remote API. -/
structure CrawlResultsResp where
  status : String
  total : Nat
  completed : Nat
  creditsUsed : Nat
  next : Option String := none
  data : List String := []
deriving DecidableEq

/-- Cancellation confirmation returned by the remote API. -/
structure CancelResp where
  job_id : String
  status : String
deriving DecidableEq

/-- One text content block of a tool result. -/
structure TextBlock where
  text : String
deriving DecidableEq

/-- Tool-result envelope `{ content, isError }` (`isError` defaults to
`false` when the source omits it). -/
structure ToolResult where
  content : List TextBlock
  isError : Bool := false
deriving DecidableEq

/-- Protocol error codes used by the dispatcher. -/
inductive ErrCode where
  | methodNotFound
  | internalError
deriving DecidableEq, Repr

/-- A handler failure: a thrown plain `Error` (its message), or a thrown
`McpError` with a protocol code. -/
inductive HandlerErr where
  | plain (msg : String)
  | mcp (code : ErrCode) (msg : String)
deriving DecidableEq

/-- The `.message` a JS catch block reads off a thrown error (`McpError`
prefixes its code). -/
def errText : HandlerErr → String
  | .plain m => m
  | .mcp .methodNotFound m => "MCP error -32601: " ++ m
  | .mcp .internalError m => "MCP error -32603: " ++ m

/-- The remote-API client as seen by the tool handlers: each operation either
returns a value or throws (the `Except` error is the thrown message).  The
scrape operation may deliver a malformed payload (`none` models a nullish
result or one without a string `status`). -/
structure ClientEnv where
  scrape : ScrapeRequest → Except String (Option ScrapeResult)
  crawl : CrawlRequest → Nat → Nat → Except String CrawlAggregate
  getCrawlStatus : String → Except String CrawlStatusResp
  getCrawlResults : String → Nat → Except String CrawlResultsResp
  cancelCrawl : String → Except String CancelResp
  search : SearchRequest → Except String (List String)

/-- JS template interpolation of a possibly-undefined value. -/
def optText (o : Option String) : String := o.getD "undefined"

/-- Text of the tool-result block produced for a remote-reported scrape
failure. -/
def scrapeFailedMsg (res : ScrapeResult) : String :=
  "Scraping failed for " ++ res.url ++ ": " ++ optText res.error

/-- Abstract rendering standing in for `JSON.stringify(response, null, 2)`;
no claim depends on its exact shape. -/
def scrapeResponseText (r : ScrapeResult) : String :=
  "url:" ++ r.url ++ ",status:" ++ r.status ++ ",title:" ++ optText r.title
    ++ ",markdown:" ++ optText r.markdown

/-- Abstract rendering of the aggregated crawl result. -/
def crawlAggregateText (r : CrawlAggregate) : String :=
  "job_id:" ++ r.job_id ++ ",status:" ++ r.status

/-- Abstract rendering of a crawl status response. -/
def crawlStatusText (r : CrawlStatusResp) : String :=
  "job_id:" ++ r.job_id ++ ",status:" ++ r.status

/-- Abstract rendering of a crawl results page. -/
def crawlResultsText (r : CrawlResultsResp) : String :=
  "status:" ++ r.status ++ ",next:" ++ optText r.next

/-- Abstract rendering of a search result list. -/
def searchResultsText (rs : List String) : String :=
  "[" ++ String.intercalate "," rs ++ "]"

/-- The argument object handed to `client.scrape` by `handleScrape`:
`url`/`engine` always, every other field only under `'field' in args`. -/
def buildScrapeArgs (a : RawToolArgs) (url : String) : ScrapeRequest :=
  { url := url
    engine := vEngine a
    proxy := a.proxy
    formats := if a.formats.isSome then some (vFormats a) else none
    timeout := if a.timeout.isSome then some (vTimeout a) else none
    retry := if a.retry.isSome then some (vRetry a) else none
    wait_for := a.wait_for
    include_tags := a.include_tags
    exclude_tags := a.exclude_tags
    json_options := a.json_options
    extract_source :=
      if a.extract_source.isSome then some (vExtractSource a) else none }

/-- `handleScrape`: validate, forward the presence-preserving argument object,
then map the client outcome: a thrown error propagates; a nullish/malformed
payload becomes an internal `McpError`; a result with `status === 'failed'`
becomes a successful tool result with `isError: true` whose text names the
failed URL; otherwise the projected response is serialized. -/
def handleScrape (env : ClientEnv) (a : RawToolArgs) :
    Except HandlerErr ToolResult :=
  match a.url with
  | none => .error (.plain "Validation failed: url is required")
  | some url =>
    match env.scrape (buildScrapeArgs a url) with
    | .error m => .error (.plain m)
    | .ok none =>
      .error (.mcp .internalError "Unexpected scrape result from AnyCrawl API")
    | .ok (some res) =>
      if res.status = "failed" then
        .ok { content := [{ text := scrapeFailedMsg res }], isError := true }
      else
        .ok { content := [{ text := scrapeResponseText res }] }

/-- The top-level crawl parameters `handleCrawl` forwards to `client.crawl`
(the comment in the source: "Top-level crawl params (NOT part of
ScrapeOptionsSchema)").  None of the per-page scrape-option fields and not
even the caller's nested `scrape_options` are ever assigned to this object. -/
def buildCrawlArgs (a : RawToolArgs) (url : String) : CrawlRequest :=
  { url := url
    retry := if a.retry.isSome then some (vRetry a) else none
    exclude_paths := a.exclude_paths
    include_paths := a.include_paths
    max_depth := if a.max_depth.isSome then some (vMaxDepth a) else none
    strategy := if a.strategy.isSome then some (vStrategy a) else none
    limit := if a.limit.isSome then some (vLimit a) else none
    engine := if a.engine.isSome then some (vEngine a) else none }

/-- The local `scrapeOptions` object `handleCrawl` builds from the top-level
per-page fields ("ScrapeOptionsSchema fields must be nested under
scrape_options").  The source constructs it and then never uses it: it is
neither attached to `crawlArgs` nor passed to `client.crawl`. -/
def crawlScrapeOptionsLocal (a : RawToolArgs) : NestedScrapeOpts :=
  { proxy := a.proxy
    formats := if a.formats.isSome then some (vFormats a) else none
    timeout := if a.timeout.isSome then some (vTimeout a) else none
    wait_for := a.wait_for
    include_tags := a.include_tags
    exclude_tags := a.exclude_tags
    json_options := a.json_options
    extract_source :=
      if a.extract_source.isSome then some (vExtractSource a) else none }

/-- Poll interval in seconds chosen by `handleCrawl`:
`poll_seconds ?? (poll_interval_ms ? max(1, round(poll_interval_ms/1000)) : 3)`. -/
def crawlPollSeconds (a : RawToolArgs) : Nat :=
  match a.poll_seconds with
  | some p => p
  | none =>
    match a.poll_interval_ms with
    | some pim => if pim ≠ 0 then max 1 ((pim + 500) / 1000) else 3
    | none => 3

/-- `handleCrawl`: builds the top-level `crawlArgs` (and the dead local
`scrapeOptions`), then calls the SDK's aggregated `client.crawl` with the
chosen poll interval and `timeout_ms ?? 60000`. -/
def handleCrawl (env : ClientEnv) (a : RawToolArgs) :
    Except HandlerErr ToolResult :=
  match a.url with
  | none => .error (.plain "Validation failed: url is required")
  | some url =>
    match env.crawl (buildCrawlArgs a url) (crawlPollSeconds a)
        (a.timeout_ms.getD 60000) with
    | .error m => .error (.plain m)
    | .ok agg => .ok { content := [{ text := crawlAggregateText agg }] }

/-- `handleCrawlStatus`: call through with the validated job id. -/
def handleCrawlStatus (env : ClientEnv) (a : RawToolArgs) :
    Except HandlerErr ToolResult :=
  match a.job_id with
  | none => .error (.plain "Validation failed: job_id is required")
  | some j =>
    match env.getCrawlStatus j with
    | .error m => .error (.plain m)
    | .ok r => .ok { content := [{ text := crawlStatusText r }] }

/-- `handleCrawlResults`: call through with the validated job id and the
schema-defaulted `skip` (default `0`). -/
def handleCrawlResults (env : ClientEnv) (a : RawToolArgs) :
    Except HandlerErr ToolResult :=
  match a.job_id with
  | none => .error (.plain "Validation failed: job_id is required")
  | some j =>
    match env.getCrawlResults j (a.skip.getD 0) with
    | .error m => .error (.plain m)
    | .ok r => .ok { content := [{ text := crawlResultsText r }] }

/-- `handleCancelCrawl`: call through and render the confirmation. -/
def handleCancelCrawl (env : ClientEnv) (a : RawToolArgs) :
    Except HandlerErr ToolResult :=
  match a.job_id with
  | none => .error (.plain "Validation failed: job_id is required")
  | some j =>
    match env.cancelCrawl j with
    | .error m => .error (.plain m)
    | .ok r =>
      .ok { content := [{ text := "Crawl job cancelled successfully!" ++
              "\nJob ID: " ++ r.job_id ++ "\nStatus: " ++ r.status }] }

/-- The nested `scrape_options` object `handleSearch` assembles from the
top-level search-scrape fields (`scrape_engine` becomes `engine`). -/
def searchScrapeOptions (a : RawToolArgs) : NestedScrapeOpts :=
  { engine := a.scrape_engine
    proxy := a.proxy
    formats := if a.formats.isSome then some (vFormats a) else none
    timeout := if a.timeout.isSome then some (vTimeout a) else none
    wait_for := a.wait_for
    include_tags := a.include_tags
    exclude_tags := a.exclude_tags
    json_options := a.json_options
    extract_source :=
      if a.extract_source.isSome then some (vExtractSource a) else none }

/-- Whether at least one search-scrape field was supplied
(`Object.keys(scrapeOptions).length > 0`). -/
def hasSearchScrapeOptions (a : RawToolArgs) : Bool :=
  a.scrape_engine.isSome || a.proxy.isSome || a.formats.isSome ||
  a.timeout.isSome || a.wait_for.isSome || a.include_tags.isSome ||
  a.exclude_tags.isSome || a.json_options.isSome || a.extract_source.isSome

/-- The argument object handed to `client.search` by `handleSearch`:
top-level search parameters under presence guards, plus the nested
`scrape_options` only when at least one of its fields was supplied. -/
def buildSearchArgs (a : RawToolArgs) (query : String) : SearchRequest :=
  { query := query
    engine := a.engine
    limit := a.limit
    offset := a.offset
    pages := a.pages
    lang := a.lang
    country := a.country
    safeSearch := a.safeSearch
    scrape_options :=
      if hasSearchScrapeOptions a then some (searchScrapeOptions a) else none }

/-- `handleSearch`: forward the presence-preserving search arguments and
serialize the result list. -/
def handleSearch (env : ClientEnv) (a : RawToolArgs) :
    Except HandlerErr ToolResult :=
  match a.query with
  | none => .error (.plain "Validation failed: query is required")
  | some q =>
    match env.search (buildSearchArgs a q) with
    | .error m => .error (.plain m)
    | .ok rs => .ok { content := [{ text := searchResultsText rs }] }

/-- The tool-name switch shared by both dispatch paths; `none` is the
`default:` branch (unknown tool). -/
def runTool (env : ClientEnv) (name : String) (a : RawToolArgs) :
    Option (Except HandlerErr ToolResult) :=
  if name = "anycrawl_scrape" then some (handleScrape env a)
  else if name = "anycrawl_crawl" then some (handleCrawl env a)
  else if name = "anycrawl_crawl_status" then some (handleCrawlStatus env a)
  else if name = "anycrawl_crawl_results" then some (handleCrawlResults env a)
  else if name = "anycrawl_cancel_crawl" then some (handleCancelCrawl env a)
  else if name = "anycrawl_search" then some (handleSearch env a)
  else none

/-- Outcome of the protocol-path call-tool handler: either a protocol-level
result or a protocol-level error with a code. -/
inductive ProtoOut where
  | result (r : ToolResult)
  | protoError (code : ErrCode) (msg : String)
deriving DecidableEq

/-- The `CallToolRequestSchema` handler: an unknown tool name throws a
`MethodNotFound` `McpError` which the catch block rethrows unchanged; a
handler's `McpError` is rethrown unchanged; any other thrown error is wrapped
into an internal `Tool execution failed: …` error. -/
def callToolRequestHandler (env : ClientEnv) (name : String)
    (a : RawToolArgs) : ProtoOut :=
  match runTool env name a with
  | none => .protoError .methodNotFound ("Unknown tool: " ++ name)
  | some (.ok r) => .result r
  | some (.error (.mcp c m)) => .protoError c m
  | some (.error (.plain m)) =>
    .protoError .internalError ("Tool execution failed: " ++ m)

/-- The direct helper `handleToolCall`: never throws; an unknown tool name
returns an `isError` result `Unknown tool: <name>`, and a thrown error is
folded into an `isError` result `Tool execution failed: <message>`. -/
def handleToolCall (env : ClientEnv) (name : String) (a : RawToolArgs) :
    ToolResult :=
  match runTool env name a with
  | none => { content := [{ text := "Unknown tool: " ++ name }],
              isError := true }
  | some (.ok r) => r
  | some (.error e) =>
    { content := [{ text := "Tool execution failed: " ++ errText e }],
      isError := true }

/-! ### Aggregated crawl of the reference client (`realClient.crawl`)

`crawl(input, pollIntervalSeconds = 2, timeoutMs = 60000)` submits the job,
polls `getCrawlStatus` until the status is terminal or the elapsed wall-clock
time exceeds `timeoutMs` (sleeping `max(1, pollIntervalSeconds) * 1000` ms
between polls), then pages through `getCrawlResults` until no `next` marker
remains, concatenating the pages' `data` arrays.  Polls are modelled as
instantaneous, so the elapsed time at the `n`-th poll is `n` sleeps; the
status sequence and the page for a given `skip` are inputs.  The pagination
loop has no termination guarantee in the source (a page can keep announcing
`next`), so it is modelled with fuel; `none` means the run was cut off. -/

/-- Job status values seen while polling. -/
inductive JobStatus where
  | pending
  | completed
  | failed
  | cancelled
deriving DecidableEq, Repr

/-- One page returned by `getCrawlResults(jobId, skip)`; every field is
optional in the raw payload, `next` is the truthiness of the next-page
marker. -/
structure ResultsPage where
  total : Option Nat := none
  completed : Option Nat := none
  creditsUsed : Option Nat := none
  data : Option (List String) := none
  next : Bool := false

/-- Aggregation accumulator of the pagination loop. -/
structure AggAcc where
  aggregated : List String := []
  total : Nat := 0
  completed : Nat := 0
  creditsUsed : Nat := 0
deriving DecidableEq, Repr

/-- The remote side as the crawl operation sees it: the job id returned by
`createCrawl`, the status the `n`-th poll observes, and the page returned for
a given `skip`. -/
structure RealCrawlEnv where
  createdJobId : String
  status : Nat → JobStatus
  results : Nat → ResultsPage

/-- Sleep length in ms between polls: `Math.max(1, pollIntervalSeconds) * 1000`. -/
def stepMsOf (pollIntervalSeconds : Nat) : Nat :=
  (max 1 pollIntervalSeconds) * 1000

/-- The polling loop of `crawl`: at the `n`-th poll, a `completed` or
`cancelled` status exits the loop, `failed` throws
`Crawl failed (job_id=<id>)`, and a still-pending job throws
`Crawl timed out after <timeoutMs>ms` once the elapsed time exceeds the
timeout. -/
def pollLoop (status : Nat → JobStatus) (jobId : String)
    (stepMs timeoutMs : Nat) (hstep : 0 < stepMs) (n : Nat) :
    Except String Unit :=
  match status n with
  | .completed => .ok ()
  | .cancelled => .ok ()
  | .failed => .error ("Crawl failed (job_id=" ++ jobId ++ ")")
  | .pending =>
    if h : timeoutMs < n * stepMs then
      .error ("Crawl timed out after " ++ toString timeoutMs ++ "ms")
    else
      pollLoop status jobId stepMs timeoutMs hstep (n + 1)
termination_by timeoutMs + stepMs - n * stepMs
decreasing_by
  have h1 : n * stepMs ≤ timeoutMs := Nat.le_of_not_lt h
  have h2 : (n + 1) * stepMs = n * stepMs + stepMs := Nat.succ_mul n stepMs
  omega

/-- The `data` entries a page contributes to the aggregate
(`Array.isArray(page.data) && page.data.length > 0` guards the push). -/
def pageAppended (p : ResultsPage) : List String :=
  match p.data with
  | some l => if 0 < l.length then l else []
  | none => []

/-- The pagination loop of `crawl`: fold the page into the accumulator,
continue at `skip = aggregated.length` while the page announces `next`. -/
def fetchLoop (results : Nat → ResultsPage) :
    Nat → Nat → AggAcc → Option AggAcc
  | 0, _, _ => none
  | fuel + 1, skip, acc =>
    let page := results skip
    let acc1 : AggAcc :=
      { aggregated := acc.aggregated ++ pageAppended page
        total := page.total.getD acc.total
        completed := page.completed.getD acc.completed
        creditsUsed := page.creditsUsed.getD acc.creditsUsed }
    if page.next then fetchLoop results fuel acc1.aggregated.length acc1
    else some acc1

/-- `crawl` of the reference client: poll, then aggregate; the returned
object always carries `status: 'completed'`. -/
def realCrawl (env : RealCrawlEnv) (pollIntervalSeconds timeoutMs fetchFuel : Nat) :
    Option (Except String CrawlAggregate) :=
  let jobId := env.createdJobId
  match pollLoop env.status jobId (stepMsOf pollIntervalSeconds) timeoutMs
      (by simp only [stepMsOf]; positivity) 0 with
  | .error m => some (.error m)
  | .ok () =>
    match fetchLoop env.results fetchFuel 0 {} with
    | none => none
    | some acc =>
      some (.ok { job_id := jobId, status := "completed", total := acc.total,
                  completed := acc.completed, creditsUsed := acc.creditsUsed,
                  data := acc.aggregated })

/-- Observer used to state the aggregation property: the sequence of pages
the pagination loop fetches, starting at a given `skip` with a given current
aggregate length. -/
def fetchedPages (results : Nat → ResultsPage) :
    Nat → Nat → Nat → List ResultsPage
  | 0, _, _ => []
  | fuel + 1, skip, curLen =>
    let page := results skip
    let newLen := curLen + (pageAppended page).length
    page :: (if page.next then fetchedPages results fuel newLen newLen else [])

/-- Substring test used to state that an error message mentions a token. -/
def strContains (hay needle : String) : Bool :=
  (List.range (hay.data.length + 1)).any
    (fun i => needle.data.isPrefixOf (hay.data.drop i))

/-- Registry state with two distinct tenants `"a"` and `"a-b"` each holding a
session whose token is the same value `"b-q"`. -/
def c5State : CombinedState :=
  { mcpTransports := [("a", [("b-q", 1)]), ("a-b", [("b-q", 2)])],
    mcpServers := [("a", [("b-q", 11)]), ("a-b", [("b-q", 12)])],
    sseTransports := [], deletionTimes := [], sessionStates := [] }

/-- Session id produced by the SDK's `randomUUID` generator (UUIDs always
contain four `'-'` characters). -/
def c1Uuid : String := "7a2e165d-8f81-4be6-9ef7-23222330a396"

/-- State after tenant `"tenant1"` opens a stateful session via an initialize
POST carrying no session token. -/
def c1AfterInit : CombinedState :=
  (handleMcpPost emptyCombined "tenant1" none true c1Uuid 11 21).1

/-- State after the session's transport closes at time `0`: the deletion is
scheduled for `300000`. -/
def c1AfterClose : CombinedState :=
  onMcpTransportClose c1AfterInit "tenant1" c1Uuid 0

/-- State after the cleanup sweep runs exactly at the deadline. -/
def c1AfterSweep : CombinedState := performCleanup c1AfterClose 300000

/-- Generated session token of the first initialize in the C3 scenario. -/
def c3SidA : String := "7a2e165d-8f81-4be6-9ef7-23222330a396"

/-- Generated session token of the second initialize. -/
def c3SidB : String := "550e8400-e29b-41d4-a716-446655440000"

/-- State after tenant `"k"`'s first tokenless initialize (engine `1`,
transport `101`). -/
def c3After1 : CombinedState :=
  (handleMcpPost emptyCombined "k" none true c3SidA 101 1).1

/-- State after tenant `"k"`'s second tokenless initialize (engine `2`,
transport `102`). -/
def c3After2 : CombinedState :=
  (handleMcpPost c3After1 "k" none true c3SidB 102 2).1

/-- State after a third tokenless initialize (engine `3`, transport `103`). -/
def c3After3 : CombinedState :=
  (handleMcpPost c3After2 "k" none true "9c858901-8a57-4791-81fe-4c455b099bc9" 103 3).1

/-- Raw crawl-tool arguments of the C6 scenario: the caller supplies several
per-page scrape-option fields and a nested `scrape_options` object besides
the top-level crawl parameters. -/
def c6Args : RawToolArgs :=
  { url := some "https://example.com",
    engine := some "cheerio",
    formats := some ["markdown", "html"],
    proxy := some "http://proxy.example.com:8080",
    wait_for := some 1500,
    json_options := some "json-extraction-options",
    scrape_options := some "per-page-overrides",
    limit := some 50 }

/-- Remote side of a crawl whose job never reaches a terminal status. -/
def c7Env : RealCrawlEnv :=
  { createdJobId := "job-1234",
    status := fun _ => JobStatus.pending,
    results := fun _ => {} }

/-- Remote side of a crawl whose job is reported `failed` at the first poll. -/
def c7FailEnv : RealCrawlEnv :=
  { createdJobId := "jid-77",
    status := fun _ => JobStatus.failed,
    results := fun _ => {} }

/-- Remote side of a crawl whose job is already `cancelled` at the first poll
and whose results come in two pages. -/
def c10Env : RealCrawlEnv :=
  { createdJobId := "job-c10",
    status := fun _ => JobStatus.cancelled,
    results := fun skip =>
      if skip = 0 then
        { total := some 3, completed := some 3, creditsUsed := some 1,
          data := some ["p1", "p2"], next := true }
      else
        { data := some ["p3"], next := false } }

/-- The aggregate `realCrawl` produces in the `c10Env` scenario. -/
def c10AggResult : CrawlAggregate :=
  { job_id := "job-c10", status := "completed", total := 3, completed := 3,
    creditsUsed := 1, data := ["p1", "p2", "p3"] }

/-- Registry holding one mcp session `("k", "s")`, used to instantiate the
lifecycle theorems. -/
def c2State : CombinedState :=
  { mcpTransports := [("k", [("s", 7)])], mcpServers := [("k", [("s", 70)])],
    sseTransports := [], deletionTimes := [], sessionStates := [] }

/-- Registry used to instantiate the invalid-session rejection theorem. -/
def c4State : CombinedState :=
  { mcpTransports := [("k", [("s", 7)])], mcpServers := [("k", [("s", 70)])],
    sseTransports := [], deletionTimes := [], sessionStates := [] }

/-- Registry with tenants `"t1"` and `"t2"` holding the same token `"tok"`. -/
def c5WitState : CombinedState :=
  { mcpTransports := [("t1", [("tok", 1)]), ("t2", [("tok", 2)])],
    mcpServers := [], sseTransports := [], deletionTimes := [],
    sessionStates := [] }

/-- Client stub whose every operation fails with a network error (the shape
of the repository's jest mock of `AnyCrawlClient`). -/
def mockClient : ClientEnv :=
  { scrape := fun _ => .error "Network error: Unable to reach AnyCrawl API",
    crawl := fun _ _ _ => .error "Network error: Unable to reach AnyCrawl API",
    getCrawlStatus :=
      fun _ => .error "Network error: Unable to reach AnyCrawl API",
    getCrawlResults :=
      fun _ _ => .error "Network error: Unable to reach AnyCrawl API",
    cancelCrawl := fun _ => .error "Network error: Unable to reach AnyCrawl API",
    search := fun _ => .error "Network error: Unable to reach AnyCrawl API" }

/-- An empty raw argument object. -/
def emptyArgs : RawToolArgs := {}

/-- Scrape arguments of the C8 scenario. -/
def c8Args : RawToolArgs :=
  { url := some "https://example.com", engine := some "cheerio" }

/-- Remote scrape result marked failed. -/
def c8Res : ScrapeResult :=
  { url := "https://example.com", status := "failed",
    error := some "Engine crashed" }

/-- Client stub whose scrape operation reports the failed result. -/
def c8Env : ClientEnv := { mockClient with scrape := fun _ => .ok (some c8Res) }

/-! ### Lemmas and claim theorems -/

theorem getk_setk_self {β : Type} (m : List (String × β)) (k : String) (v : β) :
    getk (setk m k v) k = some v := by
  induction m with
  | nil => simp [getk, setk]
  | cons p rest ih =>
    obtain ⟨pk, pv⟩ := p
    by_cases h : pk = k <;> simp [getk, setk, h, ih]

theorem getk_setk_ne {β : Type} (m : List (String × β)) (k k' : String) (v : β)
    (h : k ≠ k') : getk (setk m k v) k' = getk m k' := by
  induction m with
  | nil => simp [getk, setk, h]
  | cons p rest ih =>
    obtain ⟨pk, pv⟩ := p
    by_cases hp : pk = k
    · subst hp
      simp [getk, setk, h]
    · by_cases hp' : pk = k'
      · subst hp'
        simp [getk, setk, hp, Ne.symm h]
      · simp [getk, setk, hp, hp', ih]

theorem getk_delk_self {β : Type} (m : List (String × β)) (k : String) :
    getk (delk m k) k = none := by
  induction m with
  | nil => simp [getk, delk]
  | cons p rest ih =>
    obtain ⟨pk, pv⟩ := p
    by_cases h : pk = k <;> simp_all [getk, delk, List.filter_cons]

theorem getk_delk_ne {β : Type} (m : List (String × β)) (k k' : String)
    (h : k ≠ k') : getk (delk m k) k' = getk m k' := by
  induction m with
  | nil => simp [getk, delk]
  | cons p rest ih =>
    obtain ⟨pk, pv⟩ := p
    by_cases hp : pk = k
    · subst hp
      simp_all [getk, delk, List.filter_cons, Ne.symm h]
    · by_cases hp' : pk = k' <;> simp_all [getk, delk, List.filter_cons]

theorem getk2_setk2_self {β : Type} (m : List (String × List (String × β)))
    (a b : String) (v : β) : getk2 (setk2 m a b v) a b = some v := by
  unfold getk2 setk2
  cases h : getk m a with
  | none => simp [getk_setk_self, getk]
  | some sub => simp [getk_setk_self]

theorem getk2_setk2_ne_tenant {β : Type}
    (m : List (String × List (String × β))) (a b a' b' : String) (v : β)
    (h : a ≠ a') : getk2 (setk2 m a b v) a' b' = getk2 m a' b' := by
  unfold getk2 setk2
  cases hm : getk m a with
  | none => rw [getk_setk_ne _ _ _ _ h]
  | some sub => rw [getk_setk_ne _ _ _ _ h]

theorem getk2_setk2_ne_sid {β : Type}
    (m : List (String × List (String × β))) (a b b' : String) (v : β)
    (h : b ≠ b') : getk2 (setk2 m a b v) a b' = getk2 m a b' := by
  unfold getk2 setk2
  cases hm : getk m a with
  | none => simp [getk_setk_self, getk, if_neg h, hm]
  | some sub => simp [getk_setk_self, getk_setk_ne _ _ _ _ h, hm]

theorem getk2_delk2_ne_tenant {β : Type}
    (m : List (String × List (String × β))) (a b a' b' : String)
    (h : a ≠ a') : getk2 (delk2 m a b) a' b' = getk2 m a' b' := by
  unfold delk2
  cases hm : getk m a with
  | none => rfl
  | some sub => unfold getk2; rw [getk_setk_ne _ _ _ _ h]

theorem getk2_delk2_ne_sid {β : Type}
    (m : List (String × List (String × β))) (a b b' : String)
    (h : b ≠ b') : getk2 (delk2 m a b) a b' = getk2 m a b' := by
  unfold delk2
  cases hm : getk m a with
  | none => rfl
  | some sub => simp [getk2, getk_setk_self, getk_delk_ne _ _ _ h, hm]

theorem getk2_delk2_self {β : Type}
    (m : List (String × List (String × β))) (a b : String) :
    getk2 (delk2 m a b) a b = none := by
  unfold delk2
  cases hm : getk m a with
  | none => simp [getk2, hm]
  | some sub => simp [getk2, getk_setk_self, getk_delk_self]

theorem stepMsOf_pos (p : Nat) : 0 < stepMsOf p := by
  have h1 : (0 : Nat) < max 1 p := lt_of_lt_of_le one_pos (le_max_left 1 p)
  simpa [stepMsOf] using Nat.mul_pos h1 (by norm_num)

theorem mem_delk {β : Type} (m : List (String × β)) (key : String)
    (p : String × β) (hp : p ∈ delk m key) : p.1 ≠ key := by
  have := List.mem_filter.mp hp
  simpa using this.2

theorem jsSplit_data (key : String) (p0 p1 p2 : String)
    (h : jsSplit key '-' = [p0, p1, p2]) :
    key.data = p0.data ++ '-' :: (p1.data ++ '-' :: p2.data) := by
  have hco : (String.data ∘ String.mk) = (id : List Char → List Char) :=
    funext (fun _ => rfl)
  have hsplit : key.data.splitOn '-' = [p0.data, p1.data, p2.data] := by
    have h2 := congrArg (List.map String.data) h
    simpa [jsSplit, List.map_map, hco] using h2
  have h3 : [('-' : Char)].intercalate (key.data.splitOn '-') = key.data :=
    List.intercalate_splitOn key.data '-'
  rw [hsplit] at h3
  simpa [List.intercalate, List.intersperse] using h3.symm

theorem sessionKey_data (a sid : String) (b : Bool) :
    (sessionKey a sid b).data
      = a.data ++ '-' :: (sid.data ++ '-' :: (if b then "mcp" else "sse").data) := by
  have hdash : ("-" : String).data = ['-'] := rfl
  cases b <;> simp [sessionKey, String.data_append, hdash]

theorem key_eq_sessionKey_of_split (key p0 p1 : String)
    (h : jsSplit key '-' = [p0, p1, "mcp"]) : key = sessionKey p0 p1 true := by
  apply String.ext
  rw [jsSplit_data key p0 p1 "mcp" h, sessionKey_data]
  simp

/-- Deleting any key other than `sessionKey a sid true` leaves the mcp
transport/server bindings of `(a, sid)`, that key's session state, and the
deletion schedule untouched. -/
theorem executeDeletion_mcp_frame (st : CombinedState) (key a sid : String)
    (hk : key ≠ sessionKey a sid true) :
    getk2 (executeDeletion st key).mcpTransports a sid
        = getk2 st.mcpTransports a sid
    ∧ getk2 (executeDeletion st key).mcpServers a sid
        = getk2 st.mcpServers a sid
    ∧ getk (executeDeletion st key).sessionStates (sessionKey a sid true)
        = getk st.sessionStates (sessionKey a sid true)
    ∧ (executeDeletion st key).deletionTimes = st.deletionTimes := by
  unfold executeDeletion
  split
  case h_2 => exact ⟨rfl, rfl, rfl, rfl⟩
  case h_1 p0 p1 p2 hsplit =>
    by_cases hempty : p0 = "" ∨ p1 = "" ∨ p2 = ""
    · simp [hempty]
    · have h0 : ¬ p0 = "" := fun hh => hempty (Or.inl hh)
      have h1 : ¬ p1 = "" := fun hh => hempty (Or.inr (Or.inl hh))
      have h2 : ¬ p2 = "" := fun hh => hempty (Or.inr (Or.inr hh))
      by_cases hmcp : p2 = "mcp"
      · subst hmcp
        have hkey := key_eq_sessionKey_of_split key p0 p1 hsplit
        by_cases hp0 : p0 = a
        · subst hp0
          by_cases hp1 : p1 = sid
          · exact absurd (hp1 ▸ hkey) hk
          · simp [h0, h1, h2, getk2_delk2_ne_sid _ _ _ _ hp1,
              getk_setk_ne _ _ _ _ hk]
        · simp [h0, h1, h2, getk2_delk2_ne_tenant _ _ _ _ _ hp0,
            getk_setk_ne _ _ _ _ hk]
      · simp [h0, h1, h2, hmcp, getk_setk_ne _ _ _ _ hk]

/-- One cleanup iteration on a foreign key preserves the `(a, sid)` mcp
bindings, that key's session state, and its pending-deletion entry. -/
theorem cleanupStep_frame (st : CombinedState) (key a sid : String)
    (hk : key ≠ sessionKey a sid true) :
    getk2 (cleanupStep st key).mcpTransports a sid
        = getk2 st.mcpTransports a sid
    ∧ getk2 (cleanupStep st key).mcpServers a sid
        = getk2 st.mcpServers a sid
    ∧ getk (cleanupStep st key).sessionStates (sessionKey a sid true)
        = getk st.sessionStates (sessionKey a sid true)
    ∧ getk (cleanupStep st key).deletionTimes (sessionKey a sid true)
        = getk st.deletionTimes (sessionKey a sid true) := by
  obtain ⟨h1, h2, h3, h4⟩ := executeDeletion_mcp_frame st key a sid hk
  refine ⟨h1, h2, h3, ?_⟩
  show getk (delk (executeDeletion st key).deletionTimes key) _ = _
  rw [h4, getk_delk_ne _ _ _ hk]

theorem foldl_cleanup_frame (keys : List String) (st : CombinedState)
    (a sid : String) (h : ∀ k ∈ keys, k ≠ sessionKey a sid true) :
    getk2 (keys.foldl cleanupStep st).mcpTransports a sid
        = getk2 st.mcpTransports a sid
    ∧ getk2 (keys.foldl cleanupStep st).mcpServers a sid
        = getk2 st.mcpServers a sid
    ∧ getk (keys.foldl cleanupStep st).sessionStates (sessionKey a sid true)
        = getk st.sessionStates (sessionKey a sid true)
    ∧ getk (keys.foldl cleanupStep st).deletionTimes (sessionKey a sid true)
        = getk st.deletionTimes (sessionKey a sid true) := by
  induction keys generalizing st with
  | nil => exact ⟨rfl, rfl, rfl, rfl⟩
  | cons k rest ih =>
    have hk : k ≠ sessionKey a sid true := h k (by simp)
    obtain ⟨s1, s2, s3, s4⟩ := cleanupStep_frame st k a sid hk
    obtain ⟨r1, r2, r3, r4⟩ :=
      ih (cleanupStep st k) (fun k' hk' => h k' (by simp [hk']))
    exact ⟨r1.trans s1, r2.trans s2, r3.trans s3, r4.trans s4⟩

/-- A cleanup sweep leaves the `(a, sid)` mcp session alone whenever no
pending-deletion entry is keyed exactly by `sessionKey a sid true`. -/
theorem performCleanup_frame (st : CombinedState) (now : Nat)
    (a sid : String)
    (h : ∀ p ∈ st.deletionTimes, p.1 ≠ sessionKey a sid true) :
    getk2 (performCleanup st now).mcpTransports a sid
        = getk2 st.mcpTransports a sid
    ∧ getk2 (performCleanup st now).mcpServers a sid
        = getk2 st.mcpServers a sid
    ∧ getk (performCleanup st now).sessionStates (sessionKey a sid true)
        = getk st.sessionStates (sessionKey a sid true)
    ∧ getk (performCleanup st now).deletionTimes (sessionKey a sid true)
        = getk st.deletionTimes (sessionKey a sid true) := by
  unfold performCleanup
  apply foldl_cleanup_frame
  intro k hk
  obtain ⟨p, hp, hpk⟩ := List.mem_map.mp hk
  have hmem : p ∈ st.deletionTimes := (List.mem_filter.mp hp).1
  exact hpk ▸ h p hmem

theorem mem_setk {β : Type} (m : List (String × β)) (k : String) (v : β)
    (p : String × β) (hp : p ∈ setk m k v) : p.1 = k ∨ p ∈ m := by
  induction m with
  | nil => simp [setk] at hp; simp [hp]
  | cons q rest ih =>
    obtain ⟨qk, qv⟩ := q
    by_cases hq : qk = k
    · simp [setk, hq] at hp
      rcases hp with h | h
      · exact Or.inl (by simp [h])
      · exact Or.inr (by simp [h])
    · simp [setk, hq] at hp
      rcases hp with h | h
      · exact Or.inr (by simp [h])
      · rcases ih h with h' | h'
        · exact Or.inl h'
        · exact Or.inr (by simp [h'])

theorem sessionKey_tenant_inj (t1 t2 s : String) (b : Bool)
    (h : sessionKey t1 s b = sessionKey t2 s b) : t1 = t2 := by
  apply String.ext
  have hd := congrArg String.data h
  rw [sessionKey_data, sessionKey_data] at hd
  exact List.append_cancel_right hd

/-- C2 (invariants): in the multi-tenant variant, a stateful session's
transport close does not tear the session down but schedules deletion at
deadline `t0 + 300000` (5 minutes) with state `'paused'`; a POST bearing the
session token while the deletion is pending (in particular at any `t1` before
the deadline) is routed, cancels the scheduled deletion, and restores the
session to `'active'`, and the subsequent cleanup sweep (at any time `t2`)
does not purge the session. -/
theorem c2_close_schedules_and_reactivation_cancels
    (st : CombinedState) (a sid : String) (T t0 t1 t2 : Nat)
    (ha : a ≠ "") (hT : getk2 st.mcpTransports a sid = some T)
    (ht1 : t1 < t0 + 300000) :
    getk (onMcpTransportClose st a sid t0).deletionTimes
        (sessionKey a sid true) = some (t0 + 300000)
    ∧ getSessionState (onMcpTransportClose st a sid t0) a sid true
        = some SState.paused
    ∧ getk2 (onMcpTransportClose st a sid t0).mcpTransports a sid = some T
    ∧ (handleMcpPost (onMcpTransportClose st a sid t0) a (some sid) false
        "" 0 0).2 = HttpResp.handled
    ∧ getk (handleMcpPost (onMcpTransportClose st a sid t0) a (some sid) false
        "" 0 0).1.deletionTimes (sessionKey a sid true) = none
    ∧ getSessionState (handleMcpPost (onMcpTransportClose st a sid t0) a
        (some sid) false "" 0 0).1 a sid true = some SState.active
    ∧ getk2 (performCleanup (handleMcpPost (onMcpTransportClose st a sid t0) a
        (some sid) false "" 0 0).1 t2).mcpTransports a sid = some T
    ∧ getSessionState (performCleanup (handleMcpPost (onMcpTransportClose st a
        sid t0) a (some sid) false "" 0 0).1 t2) a sid true
        = some SState.active := by
  have h1 : getk (onMcpTransportClose st a sid t0).deletionTimes
      (sessionKey a sid true) = some (t0 + 300000) := by
    simp [onMcpTransportClose, delayedDelete, getk_setk_self]
  have h2 : getSessionState (onMcpTransportClose st a sid t0) a sid true
      = some SState.paused := by
    simp [onMcpTransportClose, delayedDelete, getSessionState, getk_setk_self]
  have h3 : getk2 (onMcpTransportClose st a sid t0).mcpTransports a sid
      = some T := hT
  have hpost : handleMcpPost (onMcpTransportClose st a sid t0) a (some sid)
      false "" 0 0
      = (cancelDelayedDelete (onMcpTransportClose st a sid t0) a sid true,
          HttpResp.handled) := by
    simp [handleMcpPost, ha, h3]
  have hcancel : cancelDelayedDelete (onMcpTransportClose st a sid t0) a sid
      true
      = { (onMcpTransportClose st a sid t0) with
          deletionTimes := delk (onMcpTransportClose st a sid t0).deletionTimes
            (sessionKey a sid true),
          sessionStates := setk (onMcpTransportClose st a sid t0).sessionStates
            (sessionKey a sid true) SState.active } := by
    simp [cancelDelayedDelete, h1]
  have hmem : ∀ p ∈ (cancelDelayedDelete (onMcpTransportClose st a sid t0) a
      sid true).deletionTimes, p.1 ≠ sessionKey a sid true := by
    rw [hcancel]
    intro p hp
    exact mem_delk _ _ p hp
  obtain ⟨f1, f2, f3, f4⟩ := performCleanup_frame
    (cancelDelayedDelete (onMcpTransportClose st a sid t0) a sid true) t2
    a sid hmem
  refine ⟨h1, h2, h3, by rw [hpost], ?_, ?_, ?_, ?_⟩
  · rw [hpost, hcancel]
    exact getk_delk_self _ _
  · rw [hpost]
    show getk _ _ = _
    rw [hcancel]
    exact getk_setk_self _ _ _
  · rw [hpost]
    rw [f1, hcancel]
    exact h3
  · rw [hpost]
    show getk _ _ = _
    rw [f3, hcancel]
    exact getk_setk_self _ _ _

/-- C4 (error handling): a non-initialize request on the stateful streaming
binding whose session token is absent, or does not resolve in the caller's
tenant partition (or whose tenant credential is missing), is rejected with
HTTP 400 on both the POST path and the GET/DELETE path, no session is
implicitly created, and the registry state is left completely unchanged. -/
theorem c4_invalid_session_rejected_without_mutation
    (st : CombinedState) (a : String) (sh : Option String) (newSid : String)
    (tid eid : Nat)
    (hbad : a = "" ∨ sh = none ∨
      ∃ sid, sh = some sid ∧ getk2 st.mcpTransports a sid = none) :
    httpStatus (handleMcpPost st a sh false newSid tid eid).2 = 400
    ∧ (handleMcpPost st a sh false newSid tid eid).1 = st
    ∧ httpStatus (handleMcpSession st a sh).2 = 400
    ∧ (handleMcpSession st a sh).1 = st := by
  rcases hbad with ha | hsh | ⟨sid, hsid, hmiss⟩
  · subst ha
    simp [handleMcpPost, handleMcpSession, httpStatus]
  · subst hsh
    by_cases ha : a = "" <;>
      simp [handleMcpPost, handleMcpSession, httpStatus, ha]
  · subst hsid
    by_cases ha : a = "" <;>
      simp [handleMcpPost, handleMcpSession, httpStatus, ha, hmiss]

/-- C5 counterexample: the composite keys `apiKey-sessionId-kind` are joined
with the same character that may occur inside tenant ids and tokens, so the
key written by closing tenant `"a"`'s session `"b-q"` is read back as tenant
`"a-b"`'s session `"q"`: the close flips `getSessionState "a-b" "q"` from
`not_found` to `'paused'` and plants a pending deletion under tenant
`"a-b"`'s partition — another tenant's session states and pending deletions
are NOT left unchanged. -/
theorem c5_counterexample_cross_tenant_state_change :
    ("a" : String) ≠ "a-b"
    ∧ getk2 c5State.mcpTransports "a" "b-q" = some 1
    ∧ getk2 c5State.mcpTransports "a-b" "b-q" = some 2
    ∧ getSessionState c5State "a-b" "q" true = none
    ∧ getk c5State.deletionTimes (sessionKey "a-b" "q" true) = none
    ∧ getSessionState (onMcpTransportClose c5State "a" "b-q" 0) "a-b" "q" true
        = some SState.paused
    ∧ getk (onMcpTransportClose c5State "a" "b-q" 0).deletionTimes
        (sessionKey "a-b" "q" true) = some 300000 := by
  refine ⟨by decide, by decide, by decide, by decide, by decide, ?_, ?_⟩ <;>
    decide

/-- C5 amended (frame effect): two sessions with the same token value under
distinct tenant credentials are independently resolvable, and closing one of
them touches no transport or server map of any tenant; the other same-token
session's state and pending-deletion entries are untouched (the two composite
keys differ because the tenants differ), and — provided no pending-deletion
entry of the starting state is keyed by the other session's composite key —
the subsequent sweep leaves the other session resolvable.  (Isolation of a
DIFFERENT-token session of another tenant can fail, since composite keys of
distinct (tenant, token) pairs can coincide when ids contain `'-'`; see the
counterexample.) -/
theorem c5_amended_same_token_isolation
    (st : CombinedState) (t1 t2 s : String) (T1 T2 : Nat)
    (now cleanupTime : Nat) (h12 : t1 ≠ t2)
    (h1 : getk2 st.mcpTransports t1 s = some T1)
    (h2 : getk2 st.mcpTransports t2 s = some T2)
    (hpend : ∀ p ∈ st.deletionTimes, p.1 ≠ sessionKey t2 s true) :
    sessionKey t1 s true ≠ sessionKey t2 s true
    ∧ (onMcpTransportClose st t1 s now).mcpTransports = st.mcpTransports
    ∧ (onMcpTransportClose st t1 s now).mcpServers = st.mcpServers
    ∧ (onMcpTransportClose st t1 s now).sseTransports = st.sseTransports
    ∧ getSessionState (onMcpTransportClose st t1 s now) t2 s true
        = getSessionState st t2 s true
    ∧ getk (onMcpTransportClose st t1 s now).deletionTimes
        (sessionKey t2 s true)
        = getk st.deletionTimes (sessionKey t2 s true)
    ∧ getk2 (CombinedState.mcpTransports
        (performCleanup (onMcpTransportClose st t1 s now) cleanupTime))
        t2 s = some T2 := by
  have hkey : sessionKey t1 s true ≠ sessionKey t2 s true := by
    intro h
    exact h12 (sessionKey_tenant_inj t1 t2 s true h)
  have hmem : ∀ p ∈ (onMcpTransportClose st t1 s now).deletionTimes,
      p.1 ≠ sessionKey t2 s true := by
    intro p hp
    have hp' : p ∈ setk st.deletionTimes (sessionKey t1 s true) (now + 300000) :=
      hp
    rcases mem_setk _ _ _ p hp' with h | h
    · rw [h]
      exact hkey
    · exact hpend p h
  obtain ⟨f1, _, _, _⟩ := performCleanup_frame
    (onMcpTransportClose st t1 s now) cleanupTime t2 s hmem
  refine ⟨hkey, rfl, rfl, rfl, ?_, ?_, ?_⟩
  · show getk (setk st.sessionStates (sessionKey t1 s true) SState.paused) _ = _
    exact getk_setk_ne _ _ _ _ hkey
  · show getk (setk st.deletionTimes (sessionKey t1 s true) (now + 300000)) _ = _
    exact getk_setk_ne _ _ _ _ hkey
  · rw [f1]
    exact h2

/-- C1 (invariants): the cleanup sweep is supposed to purge an expired
PendingClose session — remove its transport and server from the tenant
partition, drop the pending-deletion entry, and mark it expired.  On every
real session the composite key `apiKey-<uuid>-mcp` splits on `'-'` into more
than three parts, so `executeDeletion` rejects it (`Invalid key format for
deletion`): the sweep drops the pending-deletion entry but leaves the
transport bound in the tenant partition and the session state `'paused'`,
never `'expired'`. -/
theorem c1_sweep_fails_to_purge_uuid_sessions :
    getk2 c1AfterClose.mcpTransports "tenant1" c1Uuid = some 11
    ∧ getk c1AfterClose.deletionTimes (sessionKey "tenant1" c1Uuid true)
        = some 300000
    ∧ getSessionState c1AfterClose "tenant1" c1Uuid true = some SState.paused
    ∧ getk c1AfterSweep.deletionTimes (sessionKey "tenant1" c1Uuid true) = none
    ∧ getk2 c1AfterSweep.mcpTransports "tenant1" c1Uuid = some 11
    ∧ getSessionState c1AfterSweep "tenant1" c1Uuid true = some SState.paused := by
  refine ⟨?_, ?_, ?_, ?_, ?_, ?_⟩ <;> decide

/-- C3 (invariants): sessions are indeed created only by tokenless initialize
requests with registry-generated tokens, and an initialize bearing an
existing token is routed to the existing transport without creating an
engine; but the engine is recorded under `transport.sessionId ?? 'pending'`
before the SDK assigns the session id, so no engine is ever bound to a
generated token: the first tenant session's engine is even wiped when
`onsessioninitialized` re-creates the per-tenant maps, and every later
initialize rebinds the single `(tenant, 'pending')` slot to a fresh engine —
the pair `("k", "pending")` is bound to engine 2 and later to engine 3,
violating at-most-one-engine-ever per (tenant, token) pair. -/
theorem c3_engines_bound_to_pending_not_tokens :
    getk2 c3After2.mcpTransports "k" c3SidA = some 101
    ∧ getk2 c3After2.mcpTransports "k" c3SidB = some 102
    ∧ getk2 c3After1.mcpServers "k" c3SidA = none
    ∧ getk2 c3After2.mcpServers "k" c3SidA = none
    ∧ getk2 c3After2.mcpServers "k" c3SidB = none
    ∧ getk2 c3After1.mcpServers "k" "pending" = none
    ∧ getk2 c3After2.mcpServers "k" "pending" = some 2
    ∧ getk2 c3After3.mcpServers "k" "pending" = some 3
    ∧ (handleMcpPost c3After2 "k" (some c3SidA) true "ignored" 999 9).1.mcpServers
        = c3After2.mcpServers
    ∧ (handleMcpPost c3After2 "k" (some c3SidA) true "ignored" 999 9).2
        = HttpResp.handled := by
  refine ⟨?_, ?_, ?_, ?_, ?_, ?_, ?_, ?_, ?_, ?_⟩ <;> decide

/-- C6 (functional correctness): `handleCrawl` does separate top-level crawl
parameters from the per-page scrape-option fields (building the local
`scrapeOptions` object the source comments say "must be nested under
scrape_options"), and fields absent from the raw input stay absent; but the
separated per-page options are then dropped: the request handed to
`client.crawl` contains neither a `scrape_options` object nor any per-page
field — even the caller's own nested `scrape_options` is discarded — while
the genuine top-level fields are forwarded. -/
theorem c6_crawl_drops_separated_scrape_options :
    c6Args.formats = some ["markdown", "html"]
    ∧ c6Args.scrape_options = some "per-page-overrides"
    ∧ (crawlScrapeOptionsLocal c6Args).formats = some ["markdown", "html"]
    ∧ (crawlScrapeOptionsLocal c6Args).proxy
        = some "http://proxy.example.com:8080"
    ∧ (buildCrawlArgs c6Args "https://example.com").scrape_options = none
    ∧ (buildCrawlArgs c6Args "https://example.com").formats = none
    ∧ (buildCrawlArgs c6Args "https://example.com").proxy = none
    ∧ (buildCrawlArgs c6Args "https://example.com").wait_for = none
    ∧ (buildCrawlArgs c6Args "https://example.com").json_options = none
    ∧ (buildCrawlArgs c6Args "https://example.com").engine = some "cheerio"
    ∧ (buildCrawlArgs c6Args "https://example.com").limit = some 50
    ∧ (buildCrawlArgs c6Args "https://example.com").max_depth = none := by
  refine ⟨?_, ?_, ?_, ?_, ?_, ?_, ?_, ?_, ?_, ?_, ?_, ?_⟩ <;> rfl

theorem strContains_of_data_eq (hay u : String) (x y : List Char)
    (h : hay.data = x ++ u.data ++ y) : strContains hay u = true := by
  unfold strContains
  rw [List.any_eq_true]
  refine ⟨x.length, ?_, ?_⟩
  · rw [List.mem_range, h]
    simp
    omega
  · rw [h, List.append_assoc, List.drop_left]
    exact List.isPrefixOf_iff_prefix.mpr (List.prefix_append _ _)

/-- C8 (error handling): when the remote API returns a well-formed scrape
result whose status is `'failed'`, the scrape tool produces a successful
protocol response (no thrown error, no protocol-level fault): a `ToolResult`
with `isError: true` whose single text block references the failed URL. -/
theorem c8_remote_failed_maps_to_isError_result
    (env : ClientEnv) (a : RawToolArgs) (u : String) (res : ScrapeResult)
    (hu : a.url = some u)
    (hres : env.scrape (buildScrapeArgs a u) = .ok (some res))
    (hfail : res.status = "failed") :
    callToolRequestHandler env "anycrawl_scrape" a
      = ProtoOut.result
          { content := [{ text := scrapeFailedMsg res }], isError := true }
    ∧ strContains (scrapeFailedMsg res) res.url = true := by
  constructor
  · simp [callToolRequestHandler, runTool, handleScrape, hu, hres, hfail]
  · apply strContains_of_data_eq _ _ ("Scraping failed for ".data)
      ((": " ++ optText res.error).data)
    simp [scrapeFailedMsg, String.data_append]

/-- C9 (error handling): a call-tool request naming a tool outside the
catalog fails with a MethodNotFound protocol error carrying
`Unknown tool: <name>` on the protocol path, and the direct helper
`handleToolCall` returns `isError: true` with the same
`Unknown tool: <name>` message. -/
theorem c9_unknown_tool_rejected
    (env : ClientEnv) (a : RawToolArgs) (name : String)
    (h1 : name ≠ "anycrawl_scrape") (h2 : name ≠ "anycrawl_crawl")
    (h3 : name ≠ "anycrawl_crawl_status")
    (h4 : name ≠ "anycrawl_crawl_results")
    (h5 : name ≠ "anycrawl_cancel_crawl") (h6 : name ≠ "anycrawl_search") :
    callToolRequestHandler env name a
      = ProtoOut.protoError ErrCode.methodNotFound ("Unknown tool: " ++ name)
    ∧ handleToolCall env name a
      = { content := [{ text := "Unknown tool: " ++ name }],
          isError := true } := by
  have hrun : runTool env name a = none := by
    simp [runTool, h1, h2, h3, h4, h5, h6]
  constructor <;> simp [callToolRequestHandler, handleToolCall, hrun]

theorem pollLoop_pending_timeout (status : Nat → JobStatus) (jobId : String)
    (stepMs timeoutMs : Nat) (hstep : 0 < stepMs)
    (hp : ∀ m, status m = JobStatus.pending) (n : Nat) :
    pollLoop status jobId stepMs timeoutMs hstep n
      = .error ("Crawl timed out after " ++ toString timeoutMs ++ "ms") := by
  suffices H : ∀ μ n, timeoutMs + stepMs - n * stepMs ≤ μ →
      pollLoop status jobId stepMs timeoutMs hstep n
        = .error ("Crawl timed out after " ++ toString timeoutMs ++ "ms") from
    H _ n le_rfl
  intro μ
  induction μ with
  | zero =>
    intro n hn
    have h2 : timeoutMs < n * stepMs := by omega
    rw [pollLoop, hp n]
    simp [h2]
  | succ μ ih =>
    intro n hn
    rw [pollLoop, hp n]
    by_cases h2 : timeoutMs < n * stepMs
    · simp [h2]
    · have h3 : (n + 1) * stepMs = n * stepMs + stepMs := Nat.succ_mul n stepMs
      simp [h2]
      exact ih (n + 1) (by omega)

theorem pollLoop_failed (status : Nat → JobStatus) (jobId : String)
    (stepMs timeoutMs : Nat) (hstep : 0 < stepMs) :
    ∀ k n, status (n + k) = JobStatus.failed →
      (∀ m, n ≤ m → m < n + k →
        status m = JobStatus.pending ∧ ¬ timeoutMs < m * stepMs) →
      pollLoop status jobId stepMs timeoutMs hstep n
        = .error ("Crawl failed (job_id=" ++ jobId ++ ")") := by
  intro k
  induction k with
  | zero =>
    intro n hf _
    rw [Nat.add_zero] at hf
    rw [pollLoop, hf]
  | succ k ih =>
    intro n hf hpre
    have hn := hpre n le_rfl (by omega)
    rw [pollLoop, hn.1]
    simp [hn.2]
    exact ih (n + 1) (by rw [show n + 1 + k = n + (k + 1) by omega]; exact hf)
      (fun m hm1 hm2 => hpre m (by omega) (by omega))

theorem crawlMsgs_distinct (jid : String) (T : Nat) :
    ("Crawl failed (job_id=" ++ jid ++ ")")
      ≠ ("Crawl timed out after " ++ toString T ++ "ms") := by
  intro h
  have hd := congrArg (fun s => s.data.take 7) h
  simp only [String.data_append, List.append_assoc] at hd
  rw [List.take_append_of_le_length (by decide),
    List.take_append_of_le_length (by decide)] at hd
  exact absurd hd (by decide)

/-- C7 counterexample: a job that never reaches a terminal status within the
configured `timeout_ms` makes the crawl throw
`Crawl timed out after 60000ms` — an error that contains "timed out" but does
NOT mention the job id, contrary to the claim. -/
theorem c7_counterexample_timeout_omits_job_id :
    realCrawl c7Env 2 90 5
      = some (.error "Crawl timed out after 90ms")
    ∧ strContains "Crawl timed out after 90ms" "job-1234" = false := by
  constructor
  · have h := pollLoop_pending_timeout c7Env.status c7Env.createdJobId
      (stepMsOf 2) 90 (by simp only [stepMsOf]; positivity)
      (fun _ => rfl) 0
    simp only [realCrawl]
    rw [h]
    rfl
  · decide

/-- C7 amended (error handling): during the crawl operation's bounded
polling, a job whose polled status is `failed` makes the call throw
`Crawl failed (job_id=<id>)` — an error naming the job id, never a successful
empty result — and a job that reaches no terminal status makes the call throw
`Crawl timed out after <timeout_ms>ms`, which mentions "timed out" and is
distinguishable from the job-failure error, but does not mention the job id. -/
theorem c7_amended_failed_names_job_timeout_does_not
    (env : RealCrawlEnv) (ps T fuel : Nat) :
    (∀ k, env.status k = JobStatus.failed →
      (∀ m, m < k → env.status m = JobStatus.pending
          ∧ ¬ T < m * stepMsOf ps) →
      realCrawl env ps T fuel
        = some (.error ("Crawl failed (job_id=" ++ env.createdJobId ++ ")"))
      ∧ strContains ("Crawl failed (job_id=" ++ env.createdJobId ++ ")")
          env.createdJobId = true)
    ∧ ((∀ m, env.status m = JobStatus.pending) →
      realCrawl env ps T fuel
        = some (.error ("Crawl timed out after " ++ toString T ++ "ms"))
      ∧ strContains ("Crawl timed out after " ++ toString T ++ "ms")
          "timed out" = true)
    ∧ ("Crawl failed (job_id=" ++ env.createdJobId ++ ")")
        ≠ ("Crawl timed out after " ++ toString T ++ "ms") := by
  refine ⟨?_, ?_, crawlMsgs_distinct env.createdJobId T⟩
  · intro k hk hpre
    have h := pollLoop_failed env.status env.createdJobId (stepMsOf ps) T
      (by simp only [stepMsOf]; positivity) k 0
      (by simpa using hk)
      (fun m hm1 hm2 => hpre m (by omega))
    constructor
    · simp only [realCrawl]
      rw [h]
    · apply strContains_of_data_eq _ _ ("Crawl failed (job_id=".data)
        (")".data)
      simp [String.data_append]
  · intro hp
    have h := pollLoop_pending_timeout env.status env.createdJobId
      (stepMsOf ps) T (by simp only [stepMsOf]; positivity) hp 0
    constructor
    · simp only [realCrawl]
      rw [h]
    · apply strContains_of_data_eq _ _ ("Crawl ".data)
        ((" after " ++ toString T ++ "ms").data)
      have hlit : ("Crawl timed out after " : String).data
          = "Crawl ".data ++ ("timed out".data ++ " after ".data) := by decide
      simp [String.data_append, hlit, List.append_assoc]

theorem fetchLoop_spec (results : Nat → ResultsPage) :
    ∀ fuel skip acc acc',
      fetchLoop results fuel skip acc = some acc' →
      acc'.aggregated = acc.aggregated ++
        ((fetchedPages results fuel skip acc.aggregated.length).map
          pageAppended).flatten := by
  intro fuel
  induction fuel with
  | zero =>
    intro skip acc acc' h
    simp [fetchLoop] at h
  | succ fuel ih =>
    intro skip acc acc' h
    rw [fetchLoop] at h
    rw [fetchedPages]
    by_cases hn : (results skip).next
    · simp only [hn, if_true] at h ⊢
      have hstep := ih _ _ _ h
      rw [hstep]
      simp [List.append_assoc, List.length_append]
    · simp only [hn, if_false] at h ⊢
      have : acc' = { aggregated := acc.aggregated ++ pageAppended (results skip),
                      total := (results skip).total.getD acc.total,
                      completed := (results skip).completed.getD acc.completed,
                      creditsUsed := (results skip).creditsUsed.getD acc.creditsUsed } := by
        injection h with h'
        exact h'.symm
      rw [this]
      simp

/-- C10 (functional correctness): whenever the polling loop exits normally
(the polled status became `completed` or `cancelled` before the timeout) and
the pagination terminates, the aggregated object `crawl` returns reports
`status: 'completed'` — the literal the source writes regardless of the
actual terminal status, including `cancelled` — and its `data` is the
concatenation, in fetch order, of the entries contributed by each fetched
result page. -/
theorem c10_normal_exit_reports_completed
    (env : RealCrawlEnv) (ps T fuel : Nat) (agg : CrawlAggregate)
    (h : realCrawl env ps T fuel = some (.ok agg)) :
    agg.status = "completed"
    ∧ agg.data
      = ((fetchedPages env.results fuel 0 0).map pageAppended).flatten := by
  simp only [realCrawl] at h
  rcases hpoll : pollLoop env.status env.createdJobId (stepMsOf ps) T
      (by simp only [stepMsOf]; positivity) 0 with m | u
  · rw [hpoll] at h
    simp at h
  · cases u
    rw [hpoll] at h
    rcases hfetch : fetchLoop env.results fuel 0
        { aggregated := [], total := 0, completed := 0, creditsUsed := 0 }
        with _ | acc
    · rw [hfetch] at h
      simp at h
    · rw [hfetch] at h
      simp only [Option.some.injEq] at h
      have hagg := congrArg (fun r =>
        match r with
        | Except.ok (a : CrawlAggregate) => a
        | Except.error _ => agg) h
      simp at hagg
      have hspec := fetchLoop_spec env.results fuel 0 _ _ hfetch
      constructor
      · rw [← hagg]
      · rw [← hagg]
        simpa using hspec

/-- Witness for C2 at the concrete session `("k", "s")`, closed at `t0 = 0`,
reactivated at `t1 = 1`, swept at `t2 = 999999`. -/
theorem c2_witness :
    ("k" : String) ≠ ""
    ∧ getk2 c2State.mcpTransports "k" "s" = some 7
    ∧ (1 : Nat) < 0 + 300000
    ∧ getk (onMcpTransportClose c2State "k" "s" 0).deletionTimes
        (sessionKey "k" "s" true) = some 300000
    ∧ getSessionState (onMcpTransportClose c2State "k" "s" 0) "k" "s" true
        = some SState.paused
    ∧ getk2 (CombinedState.mcpTransports
        (performCleanup (handleMcpPost (onMcpTransportClose c2State "k" "s" 0)
          "k" (some "s") false "" 0 0).1 999999)) "k" "s" = some 7
    ∧ getSessionState (performCleanup (handleMcpPost
        (onMcpTransportClose c2State "k" "s" 0) "k" (some "s") false
        "" 0 0).1 999999) "k" "s" true = some SState.active := by
  have H := c2_close_schedules_and_reactivation_cancels c2State "k" "s" 7 0 1
    999999 (by decide) (by decide) (by decide)
  exact ⟨by decide, by decide, by decide, H.1, H.2.1, H.2.2.2.2.2.2.1,
    H.2.2.2.2.2.2.2⟩

/-- Witness for C4: the token `"t"` does not resolve in tenant `"k"`. -/
theorem c4_witness :
    (("k" : String) = "" ∨ (some "t" : Option String) = none ∨
      ∃ sid, (some "t" : Option String) = some sid
        ∧ getk2 c4State.mcpTransports "k" sid = none)
    ∧ httpStatus (handleMcpPost c4State "k" (some "t") false "" 0 0).2 = 400
    ∧ (handleMcpPost c4State "k" (some "t") false "" 0 0).1 = c4State
    ∧ httpStatus (handleMcpSession c4State "k" (some "t")).2 = 400
    ∧ (handleMcpSession c4State "k" (some "t")).1 = c4State := by
  have hb : ("k" : String) = "" ∨ (some "t" : Option String) = none ∨
      ∃ sid, (some "t" : Option String) = some sid
        ∧ getk2 c4State.mcpTransports "k" sid = none :=
    Or.inr (Or.inr ⟨"t", rfl, by decide⟩)
  have H := c4_invalid_session_rejected_without_mutation c4State "k"
    (some "t") "" 0 0 hb
  exact ⟨hb, H.1, H.2.1, H.2.2.1, H.2.2.2⟩

/-- Witness for the amended C5 at tenants `"t1"`, `"t2"` sharing token
`"tok"`. -/
theorem c5_witness :
    ("t1" : String) ≠ "t2"
    ∧ getk2 c5WitState.mcpTransports "t1" "tok" = some 1
    ∧ getk2 c5WitState.mcpTransports "t2" "tok" = some 2
    ∧ sessionKey "t1" "tok" true ≠ sessionKey "t2" "tok" true
    ∧ getSessionState (onMcpTransportClose c5WitState "t1" "tok" 0) "t2" "tok"
        true = getSessionState c5WitState "t2" "tok" true
    ∧ getk2 (CombinedState.mcpTransports
        (performCleanup (onMcpTransportClose c5WitState "t1" "tok" 0) 400000))
        "t2" "tok" = some 2 := by
  have H := c5_amended_same_token_isolation c5WitState "t1" "t2" "tok" 1 2
    0 400000 (by decide) (by decide) (by decide)
    (fun p hp => absurd hp (List.not_mem_nil p))
  exact ⟨by decide, by decide, by decide, H.1, H.2.2.2.2.1, H.2.2.2.2.2.2⟩

/-- Witness for C7's amended theorem: a job failed at the first poll throws
the job-naming failure error; a never-terminal job throws the timeout error
containing "timed out"; the two messages differ. -/
theorem c7_witness :
    realCrawl c7FailEnv 2 90 5
      = some (.error "Crawl failed (job_id=jid-77)")
    ∧ strContains "Crawl failed (job_id=jid-77)" "jid-77" = true
    ∧ realCrawl c7Env 3 90 5
      = some (.error ("Crawl timed out after " ++ toString 90 ++ "ms"))
    ∧ strContains ("Crawl timed out after " ++ toString 90 ++ "ms")
        "timed out" = true
    ∧ ("Crawl failed (job_id=jid-77)" : String)
      ≠ ("Crawl timed out after " ++ toString 90 ++ "ms") := by
  have HF := (c7_amended_failed_names_job_timeout_does_not c7FailEnv 2 90 5).1
    0 rfl (fun m hm => absurd hm (Nat.not_lt_zero m))
  have HT := (c7_amended_failed_names_job_timeout_does_not c7Env 3 90 5).2.1
    (fun _ => rfl)
  have HD := (c7_amended_failed_names_job_timeout_does_not c7FailEnv 3 90 5).2.2
  exact ⟨by simpa using HF.1, by simpa using HF.2, HT.1, HT.2,
    by simpa using HD⟩

/-- Witness for C8 at a concrete failed scrape. -/
theorem c8_witness :
    c8Args.url = some "https://example.com"
    ∧ c8Env.scrape (buildScrapeArgs c8Args "https://example.com")
        = .ok (some c8Res)
    ∧ c8Res.status = "failed"
    ∧ callToolRequestHandler c8Env "anycrawl_scrape" c8Args
        = ProtoOut.result
            { content := [{ text := scrapeFailedMsg c8Res }], isError := true }
    ∧ strContains (scrapeFailedMsg c8Res) c8Res.url = true := by
  have H := c8_remote_failed_maps_to_isError_result c8Env c8Args
    "https://example.com" c8Res rfl rfl rfl
  exact ⟨rfl, rfl, rfl, H.1, H.2⟩

/-- Witness for C9 at the unknown tool name `"nope"`. -/
theorem c9_witness :
    ("nope" : String) ≠ "anycrawl_scrape"
    ∧ callToolRequestHandler mockClient "nope" emptyArgs
        = ProtoOut.protoError ErrCode.methodNotFound "Unknown tool: nope"
    ∧ handleToolCall mockClient "nope" emptyArgs
        = { content := [{ text := "Unknown tool: nope" }], isError := true } := by
  have H := c9_unknown_tool_rejected mockClient emptyArgs "nope"
    (by decide) (by decide) (by decide) (by decide) (by decide) (by decide)
  exact ⟨by decide, by simpa using H.1, by simpa using H.2⟩

/-- Witness for C10: the job is `cancelled` at the first poll, yet the
aggregate reports `completed`, with the two fetched pages concatenated. -/
theorem c10_witness :
    c10Env.status 0 = JobStatus.cancelled
    ∧ realCrawl c10Env 2 90 3 = some (.ok c10AggResult)
    ∧ c10AggResult.status = "completed"
    ∧ c10AggResult.data
        = ((fetchedPages c10Env.results 3 0 0).map pageAppended).flatten := by
  have hpl : pollLoop c10Env.status c10Env.createdJobId (stepMsOf 2) 90
      (by simp only [stepMsOf]; positivity) 0 = .ok () := by
    rw [pollLoop]
    rfl
  have hreal : realCrawl c10Env 2 90 3 = some (.ok c10AggResult) := by
    simp only [realCrawl]
    rw [hpl]
    rfl
  have H := c10_normal_exit_reports_completed c10Env 2 90 3 c10AggResult hreal
  exact ⟨rfl, hreal, H.1, H.2⟩
